import Mathlib

/-!
Verification development for the yaeger portfolio client's content layer.

The embedding below translates `src/frontend/src/utils/content-service.ts`
(the Firestore gateway: `convertToContent`, `convertFromContent`) and
`src/frontend/src/utils/content-store.ts` (the Zustand content store) into
Lean.  Content items are modelled flat, the way they exist at runtime in
JavaScript: a record with a string `type` discriminator and every
kind-specific payload field optional, absent fields being `none`.
Timestamps are modelled as millisecond counts; the Firestore
`serverTimestamp()` sentinel is a distinguished value `TsVal.server`.
`Date.now()` appears as an explicit `now` parameter.  A thrown JavaScript
exception is modelled as `Option`/explicit error results.
-/

/-- Firestore timestamp field value: either a concrete `Timestamp` (as
milliseconds) or the `serverTimestamp()` sentinel written by the client and
resolved by the server. -/
inductive TsVal where
  | ts (millis : Nat)
  | server
deriving DecidableEq, Repr

/-- Pixel dimensions, as in the `dimensions` payload field. -/
structure Dims where
  width : Int
  height : Int
deriving DecidableEq, Repr

/-- Geolocation payload of a photo, as in the `location` field. -/
structure GeoLoc where
  latitude : Int
  longitude : Int
  name : Option String
deriving DecidableEq, Repr

/-- A raw Firestore document for the `content` collection, as seen by
`convertToContent` / produced by `convertFromContent`.  Every field that a
JavaScript object may simply lack is an `Option`. -/
structure DocumentData where
  id : Option String := none
  userId : String
  title : String
  description : Option String := none
  tags : Option (List String) := none
  createdAt : Option TsVal := none
  updatedAt : Option TsVal := none
  type : String
  isFavorite : Option Bool := none
  isPublic : Option Bool := none
  collections : Option (List String) := none
  storageRef : Option String := none
  thumbnailRef : Option String := none
  dimensions : Option Dims := none
  location : Option GeoLoc := none
  camera : Option String := none
  fileType : Option String := none
  fileSize : Option Int := none
  previewRef : Option String := none
  language : Option String := none
  code : Option String := none
  runnable : Option Bool := none
  content : Option String := none
  color : Option String := none
  medium : Option String := none
  url : Option String := none
  favicon : Option String := none
  ogImage : Option String := none
  siteName : Option String := none
deriving DecidableEq, Repr

/-- A typed `Content` value as it exists at runtime: the union
`PhotoContent | DocumentContent | CodeContent | NoteContent | ArtContent |
LinkContent` of `content-types.ts`, flattened.  `type` is the runtime string
discriminator; payload fields of foreign kinds are `none`. -/
structure Content where
  id : Option String := none
  userId : String
  title : String
  description : Option String := none
  tags : Option (List String) := none
  createdAt : Nat
  updatedAt : Nat
  type : String
  isFavorite : Bool
  isPublic : Bool
  collections : Option (List String) := none
  storageRef : Option String := none
  thumbnailRef : Option String := none
  dimensions : Option Dims := none
  location : Option GeoLoc := none
  camera : Option String := none
  fileType : Option String := none
  fileSize : Option Int := none
  previewRef : Option String := none
  language : Option String := none
  code : Option String := none
  runnable : Option Bool := none
  content : Option String := none
  color : Option String := none
  medium : Option String := none
  url : Option String := none
  favicon : Option String := none
  ogImage : Option String := none
  siteName : Option String := none
deriving DecidableEq, Repr

/-- JavaScript `x?.toMillis() || Date.now()`: an absent timestamp or a
zero-millisecond timestamp falls back to `now`; calling `toMillis` on the
unresolved server sentinel throws, modelled as `none`. -/
def toMillisJs (now : Nat) : Option TsVal → Option Nat
  | none => some now
  | some (TsVal.ts m) => some (if m = 0 then now else m)
  | some TsVal.server => none

/-- JavaScript falsiness of an optional string: `undefined` and `""` are
falsy. -/
def optStrFalsy : Option String → Bool
  | none => true
  | some s => s == ""

/-- The `baseContent` object built at the top of `convertToContent`:
common fields copied with `|| ''` / `|| []` / `|| false` defaults, all
payload fields absent. -/
def baseFrom (d : DocumentData) (ca ua : Nat) : Content :=
  { id := d.id
    userId := d.userId
    title := d.title
    description := some (d.description.getD "")
    tags := some (d.tags.getD [])
    createdAt := ca
    updatedAt := ua
    type := d.type
    isFavorite := d.isFavorite.getD false
    isPublic := d.isPublic.getD false
    collections := some (d.collections.getD [])
    storageRef := none, thumbnailRef := none, dimensions := none
    location := none, camera := none, fileType := none, fileSize := none
    previewRef := none, language := none, code := none, runnable := none
    content := none, color := none, medium := none, url := none
    favicon := none, ogImage := none, siteName := none }

/-- `convertToContent` of `content-service.ts`: decode a Firestore record
into a typed `Content`, switching on the `type` field; an unknown type
throws (`none`). -/
def convertToContent (now : Nat) (d : DocumentData) : Option Content := do
  let ca ← toMillisJs now d.createdAt
  let ua ← toMillisJs now d.updatedAt
  let base := baseFrom d ca ua
  if d.type = "photo" then
    some { base with storageRef := d.storageRef, thumbnailRef := d.thumbnailRef,
                     dimensions := d.dimensions, location := d.location,
                     camera := d.camera }
  else if d.type = "document" then
    some { base with storageRef := d.storageRef, fileType := d.fileType,
                     fileSize := d.fileSize, previewRef := d.previewRef }
  else if d.type = "code" then
    some { base with language := d.language, code := d.code,
                     runnable := d.runnable }
  else if d.type = "note" then
    some { base with content := d.content, color := d.color }
  else if d.type = "art" then
    some { base with storageRef := d.storageRef, medium := d.medium,
                     dimensions := d.dimensions }
  else if d.type = "link" then
    some { base with url := d.url, favicon := d.favicon,
                     ogImage := d.ogImage, siteName := d.siteName }
  else none

/-- The `baseData` object built at the top of `convertFromContent`:
no `id` field, normalized common fields, `updatedAt` stamped with the
server sentinel, `createdAt` stamped only when the item has a falsy id. -/
def encBase (c : Content) : DocumentData :=
  { id := none
    userId := c.userId
    title := c.title
    description := some (c.description.getD "")
    tags := some (c.tags.getD [])
    createdAt := if optStrFalsy c.id then some TsVal.server else none
    updatedAt := some TsVal.server
    type := c.type
    isFavorite := some c.isFavorite
    isPublic := some c.isPublic
    collections := some (c.collections.getD [])
    storageRef := none, thumbnailRef := none, dimensions := none
    location := none, camera := none, fileType := none, fileSize := none
    previewRef := none, language := none, code := none, runnable := none
    content := none, color := none, medium := none, url := none
    favicon := none, ogImage := none, siteName := none }

/-- `convertFromContent` of `content-service.ts`: encode a typed `Content`
into the Firestore record shape, switching on the `type` field; an unknown
type throws (`none`). -/
def convertFromContent (c : Content) : Option DocumentData :=
  let base := encBase c
  if c.type = "photo" then
    some { base with storageRef := c.storageRef, thumbnailRef := c.thumbnailRef,
                     dimensions := c.dimensions, location := c.location,
                     camera := c.camera }
  else if c.type = "document" then
    some { base with storageRef := c.storageRef, fileType := c.fileType,
                     fileSize := c.fileSize, previewRef := c.previewRef }
  else if c.type = "code" then
    some { base with language := c.language, code := c.code,
                     runnable := c.runnable }
  else if c.type = "note" then
    some { base with content := c.content, color := c.color }
  else if c.type = "art" then
    some { base with storageRef := c.storageRef, medium := c.medium,
                     dimensions := c.dimensions }
  else if c.type = "link" then
    some { base with url := c.url, favicon := c.favicon,
                     ogImage := c.ogImage, siteName := c.siteName }
  else none

/-- Modelled from the spec: the remote document store resolves every
`serverTimestamp()` sentinel in a written record to a concrete
server-assigned timestamp (spec section 4.2, "create/update stamp a
server-assigned update timestamp").  The store itself is external to the
repository. -/
def resolveData (t : Nat) (d : DocumentData) : DocumentData :=
  let r : Option TsVal → Option TsVal := fun o =>
    match o with
    | some TsVal.server => some (TsVal.ts t)
    | o => o
  { d with createdAt := r d.createdAt, updatedAt := r d.updatedAt }

/-- The closed set of known content kinds (the six `ContentType` enum
values). -/
def knownType (t : String) : Prop :=
  t = "photo" ∨ t = "document" ∨ t = "code" ∨ t = "note" ∨ t = "art" ∨ t = "link"

instance (t : String) : Decidable (knownType t) := by
  unfold knownType; infer_instance

/-- Payload discipline of a photo record: no foreign-kind payload field is
set. -/
def photoOnlyD (d : DocumentData) : Prop :=
  d.type = "photo" →
    d.fileType = none ∧ d.fileSize = none ∧ d.previewRef = none ∧
    d.language = none ∧ d.code = none ∧ d.runnable = none ∧
    d.content = none ∧ d.color = none ∧ d.medium = none ∧
    d.url = none ∧ d.favicon = none ∧ d.ogImage = none ∧ d.siteName = none

/-- Payload discipline of a document record. -/
def documentOnlyD (d : DocumentData) : Prop :=
  d.type = "document" →
    d.thumbnailRef = none ∧ d.dimensions = none ∧ d.location = none ∧
    d.camera = none ∧ d.language = none ∧ d.code = none ∧ d.runnable = none ∧
    d.content = none ∧ d.color = none ∧ d.medium = none ∧
    d.url = none ∧ d.favicon = none ∧ d.ogImage = none ∧ d.siteName = none

/-- Payload discipline of a code record. -/
def codeOnlyD (d : DocumentData) : Prop :=
  d.type = "code" →
    d.storageRef = none ∧ d.thumbnailRef = none ∧ d.dimensions = none ∧
    d.location = none ∧ d.camera = none ∧ d.fileType = none ∧
    d.fileSize = none ∧ d.previewRef = none ∧ d.content = none ∧
    d.color = none ∧ d.medium = none ∧
    d.url = none ∧ d.favicon = none ∧ d.ogImage = none ∧ d.siteName = none

/-- Payload discipline of a note record. -/
def noteOnlyD (d : DocumentData) : Prop :=
  d.type = "note" →
    d.storageRef = none ∧ d.thumbnailRef = none ∧ d.dimensions = none ∧
    d.location = none ∧ d.camera = none ∧ d.fileType = none ∧
    d.fileSize = none ∧ d.previewRef = none ∧ d.language = none ∧
    d.code = none ∧ d.runnable = none ∧ d.medium = none ∧
    d.url = none ∧ d.favicon = none ∧ d.ogImage = none ∧ d.siteName = none

/-- Payload discipline of an art record. -/
def artOnlyD (d : DocumentData) : Prop :=
  d.type = "art" →
    d.thumbnailRef = none ∧ d.location = none ∧ d.camera = none ∧
    d.fileType = none ∧ d.fileSize = none ∧ d.previewRef = none ∧
    d.language = none ∧ d.code = none ∧ d.runnable = none ∧
    d.content = none ∧ d.color = none ∧
    d.url = none ∧ d.favicon = none ∧ d.ogImage = none ∧ d.siteName = none

/-- Payload discipline of a link record. -/
def linkOnlyD (d : DocumentData) : Prop :=
  d.type = "link" →
    d.storageRef = none ∧ d.thumbnailRef = none ∧ d.dimensions = none ∧
    d.location = none ∧ d.camera = none ∧ d.fileType = none ∧
    d.fileSize = none ∧ d.previewRef = none ∧ d.language = none ∧
    d.code = none ∧ d.runnable = none ∧ d.content = none ∧
    d.color = none ∧ d.medium = none

instance (d : DocumentData) : Decidable (photoOnlyD d) := by
  unfold photoOnlyD; infer_instance

instance (d : DocumentData) : Decidable (documentOnlyD d) := by
  unfold documentOnlyD; infer_instance

instance (d : DocumentData) : Decidable (codeOnlyD d) := by
  unfold codeOnlyD; infer_instance

instance (d : DocumentData) : Decidable (noteOnlyD d) := by
  unfold noteOnlyD; infer_instance

instance (d : DocumentData) : Decidable (artOnlyD d) := by
  unfold artOnlyD; infer_instance

instance (d : DocumentData) : Decidable (linkOnlyD d) := by
  unfold linkOnlyD; infer_instance

/-- A record carries only the payload fields that its own kind's decode
branch reads; every foreign-kind payload field is absent.  This is the
data-model invariant of spec section 3 ("a content item's payload fields
for a foreign kind must never be set"). -/
def ownPayloadOnlyD (d : DocumentData) : Prop :=
  photoOnlyD d ∧ documentOnlyD d ∧ codeOnlyD d ∧ noteOnlyD d ∧
    artOnlyD d ∧ linkOnlyD d

instance (d : DocumentData) : Decidable (ownPayloadOnlyD d) := by
  unfold ownPayloadOnlyD; infer_instance

/-- Payload discipline of a typed photo item. -/
def photoOnlyC (c : Content) : Prop :=
  c.type = "photo" →
    c.fileType = none ∧ c.fileSize = none ∧ c.previewRef = none ∧
    c.language = none ∧ c.code = none ∧ c.runnable = none ∧
    c.content = none ∧ c.color = none ∧ c.medium = none ∧
    c.url = none ∧ c.favicon = none ∧ c.ogImage = none ∧ c.siteName = none

/-- Payload discipline of a typed document item. -/
def documentOnlyC (c : Content) : Prop :=
  c.type = "document" →
    c.thumbnailRef = none ∧ c.dimensions = none ∧ c.location = none ∧
    c.camera = none ∧ c.language = none ∧ c.code = none ∧ c.runnable = none ∧
    c.content = none ∧ c.color = none ∧ c.medium = none ∧
    c.url = none ∧ c.favicon = none ∧ c.ogImage = none ∧ c.siteName = none

/-- Payload discipline of a typed code item. -/
def codeOnlyC (c : Content) : Prop :=
  c.type = "code" →
    c.storageRef = none ∧ c.thumbnailRef = none ∧ c.dimensions = none ∧
    c.location = none ∧ c.camera = none ∧ c.fileType = none ∧
    c.fileSize = none ∧ c.previewRef = none ∧ c.content = none ∧
    c.color = none ∧ c.medium = none ∧
    c.url = none ∧ c.favicon = none ∧ c.ogImage = none ∧ c.siteName = none

/-- Payload discipline of a typed note item. -/
def noteOnlyC (c : Content) : Prop :=
  c.type = "note" →
    c.storageRef = none ∧ c.thumbnailRef = none ∧ c.dimensions = none ∧
    c.location = none ∧ c.camera = none ∧ c.fileType = none ∧
    c.fileSize = none ∧ c.previewRef = none ∧ c.language = none ∧
    c.code = none ∧ c.runnable = none ∧ c.medium = none ∧
    c.url = none ∧ c.favicon = none ∧ c.ogImage = none ∧ c.siteName = none

/-- Payload discipline of a typed art item. -/
def artOnlyC (c : Content) : Prop :=
  c.type = "art" →
    c.thumbnailRef = none ∧ c.location = none ∧ c.camera = none ∧
    c.fileType = none ∧ c.fileSize = none ∧ c.previewRef = none ∧
    c.language = none ∧ c.code = none ∧ c.runnable = none ∧
    c.content = none ∧ c.color = none ∧
    c.url = none ∧ c.favicon = none ∧ c.ogImage = none ∧ c.siteName = none

/-- Payload discipline of a typed link item. -/
def linkOnlyC (c : Content) : Prop :=
  c.type = "link" →
    c.storageRef = none ∧ c.thumbnailRef = none ∧ c.dimensions = none ∧
    c.location = none ∧ c.camera = none ∧ c.fileType = none ∧
    c.fileSize = none ∧ c.previewRef = none ∧ c.language = none ∧
    c.code = none ∧ c.runnable = none ∧ c.content = none ∧
    c.color = none ∧ c.medium = none

instance (c : Content) : Decidable (photoOnlyC c) := by
  unfold photoOnlyC; infer_instance

instance (c : Content) : Decidable (documentOnlyC c) := by
  unfold documentOnlyC; infer_instance

instance (c : Content) : Decidable (codeOnlyC c) := by
  unfold codeOnlyC; infer_instance

instance (c : Content) : Decidable (noteOnlyC c) := by
  unfold noteOnlyC; infer_instance

instance (c : Content) : Decidable (artOnlyC c) := by
  unfold artOnlyC; infer_instance

instance (c : Content) : Decidable (linkOnlyC c) := by
  unfold linkOnlyC; infer_instance

/-- A typed item carries only its own kind's payload fields (the shape the
TypeScript union type guarantees statically). -/
def ownPayloadOnlyC (c : Content) : Prop :=
  photoOnlyC c ∧ documentOnlyC c ∧ codeOnlyC c ∧ noteOnlyC c ∧
    artOnlyC c ∧ linkOnlyC c

instance (c : Content) : Decidable (ownPayloadOnlyC c) := by
  unfold ownPayloadOnlyC; infer_instance

/-- A `ContentCollection` of `content-types.ts` as it exists at runtime. -/
structure ContentCollection where
  id : Option String := none
  userId : String
  name : String
  description : Option String := none
  coverImage : Option String := none
  createdAt : Nat
  updatedAt : Nat
  contentCount : Int
  isPublic : Bool
  color : Option String := none
deriving DecidableEq, Repr

/-- Errors observable through the store: a gateway failure (transport or
remote not-found, propagated unmodified), the store's own
content-not-found throw in the collection-membership operations, and a
JavaScript TypeError from indexing the kind-bucket record with an unknown
type string. -/
inductive StoreError where
  | transportErr (msg : String)
  | notFoundErr (id : String)
  | contentNotFoundErr (id : String)
  | typeErr
deriving DecidableEq, Repr

/-- The `contentByType` record of the store: one bucket per `ContentType`
key. -/
structure ByType where
  photo : List Content
  document : List Content
  code : List Content
  note : List Content
  art : List Content
  link : List Content
deriving DecidableEq, Repr

/-- The empty bucket record the store starts from and rebuilds on each
subscription push. -/
def ByType.empty : ByType := ⟨[], [], [], [], [], []⟩

/-- JavaScript `contentByType[t]` for a string key `t`: a defined bucket,
or `undefined` (`none`) for a key outside the six kinds. -/
def ByType.get? (b : ByType) (t : String) : Option (List Content) :=
  if t = "photo" then some b.photo
  else if t = "document" then some b.document
  else if t = "code" then some b.code
  else if t = "note" then some b.note
  else if t = "art" then some b.art
  else if t = "link" then some b.link
  else none

/-- Replace the bucket at string key `t`; a key outside the six kinds
leaves the record unchanged (used only where the source guards the key). -/
def ByType.set (b : ByType) (t : String) (l : List Content) : ByType :=
  if t = "photo" then { b with photo := l }
  else if t = "document" then { b with document := l }
  else if t = "code" then { b with code := l }
  else if t = "note" then { b with note := l }
  else if t = "art" then { b with art := l }
  else if t = "link" then { b with link := l }
  else b

/-- The six-valued `ContentType` enum of `content-types.ts`. -/
inductive ContentType where
  | photo | document | code | note | art | link
deriving DecidableEq, Repr

/-- The string value of each `ContentType` enum member. -/
def ContentType.str : ContentType → String
  | .photo => "photo"
  | .document => "document"
  | .code => "code"
  | .note => "note"
  | .art => "art"
  | .link => "link"

/-- Bucket of a known kind, by enum value. -/
def ByType.getK (b : ByType) : ContentType → List Content
  | .photo => b.photo
  | .document => b.document
  | .code => b.code
  | .note => b.note
  | .art => b.art
  | .link => b.link

/-- The body of the grouping loop in the store's content subscription
callback: `if (contentByType[item.type]) contentByType[item.type].push(item)`. -/
def pushByType (b : ByType) (i : Content) : ByType :=
  match ByType.get? b i.type with
  | some l => ByType.set b i.type (l ++ [i])
  | none => b

/-- Group a pushed content list into fresh kind buckets, as the content
subscription callback of `initialize` does. -/
def groupByType (items : List Content) : ByType :=
  items.foldl pushByType ByType.empty

/-- The store's in-memory state (the Zustand slice of `content-store.ts`,
minus the unsubscribe handles, which are opaque functions). -/
structure StoreState where
  allContent : List Content
  contentByType : ByType
  collections : List ContentCollection
  selectedContent : Option Content
  selectedCollection : Option ContentCollection
  isLoading : Bool
  error : Option StoreError
deriving DecidableEq, Repr

/-- The content subscription callback of `initialize`: each push fully
replaces `allContent` and the kind buckets and clears the loading flag. -/
def applyContentPush (s : StoreState) (items : List Content) : StoreState :=
  { s with allContent := items, contentByType := groupByType items,
           isLoading := false }

/-- The collections subscription callback of `initialize`: each push fully
replaces `collections` and clears the loading flag. -/
def applyCollectionsPush (s : StoreState) (colls : List ContentCollection) :
    StoreState :=
  { s with collections := colls, isLoading := false }

/-- A `Partial<Content>` update object: each field either absent or present
with a value (for fields that are themselves optional, the present value is
again an `Option`, since a spread can set a field to `undefined`). -/
structure ContentUpdate where
  id : Option (Option String) := none
  userId : Option String := none
  title : Option String := none
  description : Option (Option String) := none
  tags : Option (Option (List String)) := none
  createdAt : Option Nat := none
  updatedAt : Option Nat := none
  type : Option String := none
  isFavorite : Option Bool := none
  isPublic : Option Bool := none
  collections : Option (Option (List String)) := none
  storageRef : Option (Option String) := none
  thumbnailRef : Option (Option String) := none
  dimensions : Option (Option Dims) := none
  location : Option (Option GeoLoc) := none
  camera : Option (Option String) := none
  fileType : Option (Option String) := none
  fileSize : Option (Option Int) := none
  previewRef : Option (Option String) := none
  language : Option (Option String) := none
  code : Option (Option String) := none
  runnable : Option (Option Bool) := none
  content : Option (Option String) := none
  color : Option (Option String) := none
  medium : Option (Option String) := none
  url : Option (Option String) := none
  favicon : Option (Option String) := none
  ogImage : Option (Option String) := none
  siteName : Option (Option String) := none
deriving DecidableEq, Repr

/-- The spread merge `{...item, ...updates}` for content. -/
def applyContentUpdate (c : Content) (u : ContentUpdate) : Content :=
  { id := u.id.getD c.id
    userId := u.userId.getD c.userId
    title := u.title.getD c.title
    description := u.description.getD c.description
    tags := u.tags.getD c.tags
    createdAt := u.createdAt.getD c.createdAt
    updatedAt := u.updatedAt.getD c.updatedAt
    type := u.type.getD c.type
    isFavorite := u.isFavorite.getD c.isFavorite
    isPublic := u.isPublic.getD c.isPublic
    collections := u.collections.getD c.collections
    storageRef := u.storageRef.getD c.storageRef
    thumbnailRef := u.thumbnailRef.getD c.thumbnailRef
    dimensions := u.dimensions.getD c.dimensions
    location := u.location.getD c.location
    camera := u.camera.getD c.camera
    fileType := u.fileType.getD c.fileType
    fileSize := u.fileSize.getD c.fileSize
    previewRef := u.previewRef.getD c.previewRef
    language := u.language.getD c.language
    code := u.code.getD c.code
    runnable := u.runnable.getD c.runnable
    content := u.content.getD c.content
    color := u.color.getD c.color
    medium := u.medium.getD c.medium
    url := u.url.getD c.url
    favicon := u.favicon.getD c.favicon
    ogImage := u.ogImage.getD c.ogImage
    siteName := u.siteName.getD c.siteName }

/-- A `Partial<ContentCollection>` update object. -/
structure CollectionUpdate where
  id : Option (Option String) := none
  userId : Option String := none
  name : Option String := none
  description : Option (Option String) := none
  coverImage : Option (Option String) := none
  createdAt : Option Nat := none
  updatedAt : Option Nat := none
  contentCount : Option Int := none
  isPublic : Option Bool := none
  color : Option (Option String) := none
deriving DecidableEq, Repr

/-- The spread merge `{...item, ...updates}` for collections. -/
def applyCollectionUpdate (c : ContentCollection) (u : CollectionUpdate) :
    ContentCollection :=
  { id := u.id.getD c.id
    userId := u.userId.getD c.userId
    name := u.name.getD c.name
    description := u.description.getD c.description
    coverImage := u.coverImage.getD c.coverImage
    createdAt := u.createdAt.getD c.createdAt
    updatedAt := u.updatedAt.getD c.updatedAt
    contentCount := u.contentCount.getD c.contentCount
    isPublic := u.isPublic.getD c.isPublic
    color := u.color.getD c.color }

/-- One gateway invocation, recorded so a theorem can speak about which
remote calls an operation performed. -/
inductive GatewayCall where
  | createContentCall (c : Content)
  | updateContentCall (id : String) (u : ContentUpdate)
  | deleteContentCall (id : String)
  | updateCollectionCall (id : String) (u : CollectionUpdate)
deriving DecidableEq, Repr

/-- The id-match predicate `item.id === contentId` used throughout the
store. -/
def idMatches (cid : String) (i : Content) : Bool :=
  i.id == some cid

/-- The id-match predicate for collections. -/
def collIdMatches (cid : String) (c : ContentCollection) : Bool :=
  c.id == some cid

/-- `selectContent` of the store: a falsy id (null / empty string) clears
the selection; otherwise the selection becomes the first matching item or
`null` when none matches. -/
def selectContent (s : StoreState) (contentId : Option String) : StoreState :=
  if optStrFalsy contentId then { s with selectedContent := none }
  else
    match contentId with
    | none => { s with selectedContent := none }
    | some cid =>
        { s with selectedContent := s.allContent.find? (idMatches cid) }

/-- `selectCollection` of the store, symmetric to `selectContent`. -/
def selectCollection (s : StoreState) (collectionId : Option String) :
    StoreState :=
  if optStrFalsy collectionId then { s with selectedCollection := none }
  else
    match collectionId with
    | none => { s with selectedCollection := none }
    | some cid =>
        { s with selectedCollection := s.collections.find? (collIdMatches cid) }

/-- Result of a store mutation: the state after the call, the gateway calls
it issued, and the error it threw to its caller, if any. -/
structure OpResult where
  state : StoreState
  calls : List GatewayCall
  thrown : Option StoreError
deriving DecidableEq, Repr

/-- `addContent` of the store.  `newItem` is the argument passed to the
gateway's `createContent`; `gw` is that call's outcome (the created item
with its remote-assigned id, or a failure).  On success the item is
appended to the flat list and to its kind bucket; spreading an undefined
bucket for an unknown type throws inside the `try`, so it is caught like a
gateway error.  On failure the sets are untouched, the error is recorded
and re-thrown. -/
def addContent (s : StoreState) (newItem : Content)
    (gw : Except StoreError Content) : OpResult × Option Content :=
  let s1 := { s with isLoading := true, error := none }
  let calls := [GatewayCall.createContentCall newItem]
  match gw with
  | .error e =>
      (⟨{ s1 with error := some e, isLoading := false }, calls, some e⟩, none)
  | .ok nc =>
      match ByType.get? s1.contentByType nc.type with
      | some bucket =>
          (⟨{ s1 with
                allContent := s1.allContent ++ [nc],
                contentByType := ByType.set s1.contentByType nc.type (bucket ++ [nc]),
                isLoading := false }, calls, none⟩, some nc)
      | none =>
          (⟨{ s1 with error := some StoreError.typeErr, isLoading := false },
            calls, some StoreError.typeErr⟩, none)

/-- `editContent` of the store.  `gw` is the outcome of the gateway's
`updateContent`.  On success the partial update is merged into the flat
list, the found item's kind bucket and the matching selection; when no
local item matches the id, no state is written at all (so `isLoading`,
set at entry, stays true).  On failure the error is recorded and
re-thrown. -/
def editContent (s : StoreState) (contentId : String) (u : ContentUpdate)
    (gw : Except StoreError Unit) : OpResult :=
  let s1 := { s with isLoading := true, error := none }
  let calls := [GatewayCall.updateContentCall contentId u]
  match gw with
  | .error e =>
      ⟨{ s1 with error := some e, isLoading := false }, calls, some e⟩
  | .ok _ =>
      let updatedAll := s1.allContent.map fun i =>
        if idMatches contentId i then applyContentUpdate i u else i
      match s1.allContent.find? (idMatches contentId) with
      | none => ⟨s1, calls, none⟩
      | some itm =>
          match ByType.get? s1.contentByType itm.type with
          | none =>
              ⟨{ s1 with error := some StoreError.typeErr, isLoading := false },
               calls, some StoreError.typeErr⟩
          | some bucket =>
              let updatedBucket := bucket.map fun i =>
                if idMatches contentId i then applyContentUpdate i u else i
              let updatedSelected :=
                match s1.selectedContent with
                | some sc =>
                    if sc.id == some contentId then
                      some (applyContentUpdate sc u)
                    else some sc
                | none => none
              ⟨{ s1 with
                   allContent := updatedAll,
                   contentByType := ByType.set s1.contentByType itm.type updatedBucket,
                   selectedContent := updatedSelected,
                   isLoading := false }, calls, none⟩

/-- `removeContent` of the store. -/
def removeContent (s : StoreState) (contentId : String)
    (gw : Except StoreError Unit) : OpResult :=
  let s1 := { s with isLoading := true, error := none }
  let calls := [GatewayCall.deleteContentCall contentId]
  match gw with
  | .error e =>
      ⟨{ s1 with error := some e, isLoading := false }, calls, some e⟩
  | .ok _ =>
      match s1.allContent.find? (idMatches contentId) with
      | none => ⟨s1, calls, none⟩
      | some itm =>
          match ByType.get? s1.contentByType itm.type with
          | none =>
              ⟨{ s1 with error := some StoreError.typeErr, isLoading := false },
               calls, some StoreError.typeErr⟩
          | some bucket =>
              let updatedSelected :=
                match s1.selectedContent with
                | some sc => if sc.id == some contentId then none else some sc
                | none => none
              ⟨{ s1 with
                   allContent := s1.allContent.filter (fun i => !idMatches contentId i),
                   contentByType := ByType.set s1.contentByType itm.type
                     (bucket.filter (fun i => !idMatches contentId i)),
                   selectedContent := updatedSelected,
                   isLoading := false }, calls, none⟩

/-- `editCollection` of the store: merge the partial update into every
matching collection and the matching selection; record and re-throw a
gateway failure. -/
def editCollection (s : StoreState) (collectionId : String)
    (u : CollectionUpdate) (gw : Except StoreError Unit) : OpResult :=
  let s1 := { s with isLoading := true, error := none }
  let calls := [GatewayCall.updateCollectionCall collectionId u]
  match gw with
  | .error e =>
      ⟨{ s1 with error := some e, isLoading := false }, calls, some e⟩
  | .ok _ =>
      let updated := s1.collections.map fun c =>
        if collIdMatches collectionId c then applyCollectionUpdate c u else c
      let updSel :=
        match s1.selectedCollection with
        | some sc =>
            if sc.id == some collectionId then some (applyCollectionUpdate sc u)
            else some sc
        | none => none
      ⟨{ s1 with collections := updated, selectedCollection := updSel,
                 isLoading := false }, calls, none⟩

/-- `addToCollection` of the store.  Throws `ContentNotFound` when the
content id is absent locally.  Appends the collection id to the item's
membership list only when not already present (persisting via
`editContent`), then increments the target collection's `contentCount` by
one via `editCollection`, both lookups using the entry snapshot.  Any
error from the nested calls is recorded and re-thrown. -/
def addToCollection (s : StoreState) (contentId collectionId : String)
    (gwEdit gwColl : Except StoreError Unit) : OpResult :=
  match s.allContent.find? (idMatches contentId) with
  | none =>
      ⟨{ s with error := some (StoreError.contentNotFoundErr contentId) }, [],
       some (StoreError.contentNotFoundErr contentId)⟩
  | some content =>
      let cur := content.collections.getD []
      let step1 : OpResult :=
        if collectionId ∈ cur then ⟨s, [], none⟩
        else
          editContent s contentId
            { collections := some (some (cur ++ [collectionId])) } gwEdit
      match step1.thrown with
      | some e => ⟨{ step1.state with error := some e }, step1.calls, some e⟩
      | none =>
          match s.collections.find? (collIdMatches collectionId) with
          | none => ⟨step1.state, step1.calls, none⟩
          | some coll =>
              let step2 := editCollection step1.state collectionId
                { contentCount := some (coll.contentCount + 1) } gwColl
              match step2.thrown with
              | some e =>
                  ⟨{ step2.state with error := some e },
                   step1.calls ++ step2.calls, some e⟩
              | none => ⟨step2.state, step1.calls ++ step2.calls, none⟩

/-- `removeFromCollection` of the store.  Throws `ContentNotFound` when the
content id is absent locally.  Always persists the filtered membership
list via `editContent`; then decrements the target collection's
`contentCount` via `editCollection`, but only when the count is strictly
positive. -/
def removeFromCollection (s : StoreState) (contentId collectionId : String)
    (gwEdit gwColl : Except StoreError Unit) : OpResult :=
  match s.allContent.find? (idMatches contentId) with
  | none =>
      ⟨{ s with error := some (StoreError.contentNotFoundErr contentId) }, [],
       some (StoreError.contentNotFoundErr contentId)⟩
  | some content =>
      let newList := (content.collections.getD []).filter
        (fun x => x ≠ collectionId)
      let step1 := editContent s contentId
        { collections := some (some newList) } gwEdit
      match step1.thrown with
      | some e => ⟨{ step1.state with error := some e }, step1.calls, some e⟩
      | none =>
          match s.collections.find? (collIdMatches collectionId) with
          | none => ⟨step1.state, step1.calls, none⟩
          | some coll =>
              if coll.contentCount > 0 then
                let step2 := editCollection step1.state collectionId
                  { contentCount := some (coll.contentCount - 1) } gwColl
                match step2.thrown with
                | some e =>
                    ⟨{ step2.state with error := some e },
                     step1.calls ++ step2.calls, some e⟩
                | none => ⟨step2.state, step1.calls ++ step2.calls, none⟩
              else ⟨step1.state, step1.calls, none⟩

/-- A concrete note record as stored remotely, used for concrete
instantiations. -/
def noteData : DocumentData :=
  { userId := "u", title := "t", type := "note",
    id := some "a", createdAt := some (TsVal.ts 5),
    updatedAt := some (TsVal.ts 5), content := some "hi" }

/-- A concrete note content item with id `c1`. -/
def witnessItem : Content :=
  { userId := "u", title := "t", type := "note", id := some "c1",
    createdAt := 5, updatedAt := 6, isFavorite := false, isPublic := false,
    content := some "hi" }

/-- A concrete collection with id `k` and count zero. -/
def collK : ContentCollection :=
  { id := some "k", userId := "u", name := "K", createdAt := 0,
    updatedAt := 0, contentCount := 0, isPublic := false }

/-- A concrete store state holding `witnessItem` and `collK`. -/
def witnessState : StoreState :=
  { allContent := [witnessItem], contentByType := groupByType [witnessItem],
    collections := [collK], selectedContent := none,
    selectedCollection := none, isLoading := false, error := none }

/-- An item whose membership list already holds `k` twice. -/
def dupItem : Content := { witnessItem with collections := some ["k", "k"] }

/-- A store state holding `dupItem`. -/
def dupState : StoreState :=
  { witnessState with
    allContent := [dupItem],
    contentByType := groupByType [dupItem], collections := [] }

/-- An item whose membership list already holds `k` once. -/
def memberItem : Content := { witnessItem with collections := some ["k"] }

/-- A store state holding `memberItem` and `collK`. -/
def memberState : StoreState :=
  { witnessState with
    allContent := [memberItem],
    contentByType := groupByType [memberItem] }

/-- An item whose type string is outside the six known kinds. -/
def weirdItem : Content := { witnessItem with id := some "w", type := "weird" }

/-- `collK` with a strictly positive count. -/
def collK5 : ContentCollection := { collK with contentCount := 5 }

/-- A store state in which the tracked count of `k` is five. -/
def countState : StoreState := { witnessState with collections := [collK5] }

/-! Helper lemmas about the store operations. -/

theorem editContent_state_collections (s : StoreState) (cid : String)
    (u : ContentUpdate) (gw : Except StoreError Unit) :
    (editContent s cid u gw).state.collections = s.collections := by
  rcases gw with e | e
  · rfl
  · unfold editContent
    dsimp only
    split
    · rfl
    · split
      · rfl
      · rfl

theorem editCollection_state_allContent (s : StoreState) (kid : String)
    (u : CollectionUpdate) (gw : Except StoreError Unit) :
    (editCollection s kid u gw).state.allContent = s.allContent := by
  rcases gw with e | e <;> rfl

theorem editCollection_ok_collections (s : StoreState) (kid : String)
    (u : CollectionUpdate) :
    (editCollection s kid u (Except.ok ())).state.collections =
      s.collections.map
        (fun c => if collIdMatches kid c then applyCollectionUpdate c u else c) :=
  rfl

theorem editCollection_ok_thrown (s : StoreState) (kid : String)
    (u : CollectionUpdate) :
    (editCollection s kid u (Except.ok ())).thrown = none :=
  rfl

/-- C2: after any content subscription push, `allContent` equals exactly the
pushed sequence, regardless of the prior store state (any optimistically
added item absent from the push is gone): each push fully replaces the
in-memory content set, last write wins by arrival order. -/
theorem push_replaces_allContent (s : StoreState) (items : List Content) :
    (applyContentPush s items).allContent = items := rfl

/-- C4: when the gateway create call inside `addContent` fails,
`allContent` and `contentByType` are left exactly as before the call, the
error is recorded in the store's `error` field, and the same error is
re-thrown to the caller. -/
theorem addContent_failure_rolls_back (s : StoreState) (c0 : Content)
    (e : StoreError) :
    ((addContent s c0 (Except.error e)).1.state.allContent = s.allContent) ∧
    ((addContent s c0 (Except.error e)).1.state.contentByType = s.contentByType) ∧
    ((addContent s c0 (Except.error e)).1.state.error = some e) ∧
    ((addContent s c0 (Except.error e)).1.thrown = some e) := by
  refine ⟨rfl, rfl, rfl, rfl⟩

theorem find_none_of_absent (l : List Content) (cid : String)
    (h : ∀ i ∈ l, i.id ≠ some cid) :
    l.find? (idMatches cid) = none := by
  rw [List.find?_eq_none]
  intro i hi
  simp only [idMatches, beq_iff_eq]
  exact h i hi

/-- C3: `editContent` on an id that is not present locally still issues the
gateway update for that id, throws nothing when the gateway update
succeeds, and leaves `allContent`, `contentByType` and `selectedContent`
unchanged. -/
theorem editContent_absent_id_noop (s : StoreState) (cid : String)
    (u : ContentUpdate) (h : ∀ i ∈ s.allContent, i.id ≠ some cid) :
    ((editContent s cid u (Except.ok ())).calls
        = [GatewayCall.updateContentCall cid u]) ∧
    ((editContent s cid u (Except.ok ())).thrown = none) ∧
    ((editContent s cid u (Except.ok ())).state.allContent = s.allContent) ∧
    ((editContent s cid u (Except.ok ())).state.contentByType = s.contentByType) ∧
    ((editContent s cid u (Except.ok ())).state.selectedContent
        = s.selectedContent) := by
  have hf : s.allContent.find? (idMatches cid) = none := find_none_of_absent _ _ h
  unfold editContent
  dsimp only
  rw [hf]
  exact ⟨rfl, rfl, rfl, rfl, rfl⟩

theorem editContent_absent_id_noop_witness :
    (editContent witnessState "zz" {} (Except.ok ())).state.allContent
      = witnessState.allContent :=
  (editContent_absent_id_noop witnessState "zz" {} (by decide)).2.2.1

/-- C9: `editContent` on an id that is not present locally, with a
successful gateway update, leaves the store's `isLoading` flag true: the
flag is set at entry and only reset inside the branch taken when the id is
found locally, so the store stays in a loading state after the call. -/
theorem editContent_absent_id_stays_loading (s : StoreState) (cid : String)
    (u : ContentUpdate) (h : ∀ i ∈ s.allContent, i.id ≠ some cid) :
    (editContent s cid u (Except.ok ())).state.isLoading = true := by
  have hf : s.allContent.find? (idMatches cid) = none := find_none_of_absent _ _ h
  unfold editContent
  dsimp only
  rw [hf]

theorem editContent_absent_id_stays_loading_witness :
    (editContent witnessState "zz9" {} (Except.ok ())).state.isLoading = true :=
  editContent_absent_id_stays_loading witnessState "zz9" {} (by decide)

theorem collFind_none_of_absent (l : List ContentCollection) (kid : String)
    (h : ∀ c ∈ l, c.id ≠ some kid) :
    l.find? (collIdMatches kid) = none := by
  rw [List.find?_eq_none]
  intro c hc
  simp only [collIdMatches, beq_iff_eq]
  exact h c hc

/-- C7: `selectContent` (and symmetrically `selectCollection`) with an
identifier that matches nothing in the current in-memory set sets the
selection to `none` without any error, exactly as if `null` had been
passed. -/
theorem select_absent_clears (s : StoreState) (cid kid : String)
    (hc : ∀ i ∈ s.allContent, i.id ≠ some cid)
    (hk : ∀ c ∈ s.collections, c.id ≠ some kid) :
    (selectContent s (some cid) = selectContent s none) ∧
    ((selectContent s (some cid)).selectedContent = none) ∧
    (selectCollection s (some kid) = selectCollection s none) ∧
    ((selectCollection s (some kid)).selectedCollection = none) := by
  have hf : s.allContent.find? (idMatches cid) = none :=
    find_none_of_absent _ _ hc
  have hfk : s.collections.find? (collIdMatches kid) = none :=
    collFind_none_of_absent _ _ hk
  by_cases h1 : cid = "" <;> by_cases h2 : kid = "" <;>
    simp [selectContent, selectCollection, optStrFalsy, h1, h2, hf, hfk]

theorem select_absent_clears_witness :
    (selectContent witnessState (some "zz7")).selectedContent = none :=
  (select_absent_clears witnessState "zz7" "zz7" (by decide) (by decide)).2.1

theorem getK_pushByType (b : ByType) (i : Content) (t : ContentType) :
    (pushByType b i).getK t =
      b.getK t ++ (if i.type = t.str then [i] else []) := by
  by_cases h1 : i.type = "photo"
  · cases t <;> simp [pushByType, ByType.get?, ByType.set, ByType.getK,
      ContentType.str, h1]
  by_cases h2 : i.type = "document"
  · cases t <;> simp [pushByType, ByType.get?, ByType.set, ByType.getK,
      ContentType.str, h1, h2]
  by_cases h3 : i.type = "code"
  · cases t <;> simp [pushByType, ByType.get?, ByType.set, ByType.getK,
      ContentType.str, h1, h2, h3]
  by_cases h4 : i.type = "note"
  · cases t <;> simp [pushByType, ByType.get?, ByType.set, ByType.getK,
      ContentType.str, h1, h2, h3, h4]
  by_cases h5 : i.type = "art"
  · cases t <;> simp [pushByType, ByType.get?, ByType.set, ByType.getK,
      ContentType.str, h1, h2, h3, h4, h5]
  by_cases h6 : i.type = "link"
  · cases t <;> simp [pushByType, ByType.get?, ByType.set, ByType.getK,
      ContentType.str, h1, h2, h3, h4, h5, h6]
  · cases t <;> simp [pushByType, ByType.get?, ByType.set, ByType.getK,
      ContentType.str, h1, h2, h3, h4, h5, h6]

theorem foldl_pushByType_getK (items : List Content) (b : ByType)
    (t : ContentType) :
    (items.foldl pushByType b).getK t =
      b.getK t ++ items.filter (fun i => i.type == t.str) := by
  induction items generalizing b with
  | nil => simp
  | cons i is ih =>
      simp only [List.foldl_cons, List.filter_cons]
      rw [ih, getK_pushByType]
      by_cases h : i.type = t.str <;> simp [h]

theorem groupByType_getK (items : List Content) (t : ContentType) :
    (groupByType items).getK t = items.filter (fun i => i.type == t.str) := by
  have h := foldl_pushByType_getK items ByType.empty t
  cases t <;> simpa [groupByType, ByType.empty, ByType.getK] using h

/-- C10: after a content subscription push, each of the six kind buckets is
exactly the subsequence of `allContent` whose items carry that kind, in the
same relative order, and an item whose type string is outside the six kinds
is in `allContent` but in no kind bucket. -/
theorem push_buckets_partition (s : StoreState) (items : List Content) :
    ((applyContentPush s items).allContent = items) ∧
    (∀ t : ContentType,
      ((applyContentPush s items).contentByType).getK t =
        items.filter (fun i => i.type == t.str)) ∧
    (∀ i ∈ items, ¬ knownType i.type →
      ∀ t : ContentType,
        i ∉ ((applyContentPush s items).contentByType).getK t) := by
  refine ⟨rfl, ?_, ?_⟩
  · intro t
    exact groupByType_getK items t
  · intro i _ hunk t hmem
    rw [show ((applyContentPush s items).contentByType) = groupByType items
          from rfl, groupByType_getK] at hmem
    have := List.of_mem_filter hmem
    apply hunk
    have ht : i.type = t.str := by simpa using this
    cases t <;> simp [ContentType.str] at ht <;>
      simp [knownType, ht]

theorem push_buckets_partition_witness :
    weirdItem ∉
      ((applyContentPush witnessState [weirdItem]).contentByType).getK
        ContentType.photo :=
  (push_buckets_partition witnessState [weirdItem]).2.2 weirdItem (by decide)
    (by decide) ContentType.photo

theorem editCollection_count_nonneg (s : StoreState) (kid : String) (n : Int)
    (gw : Except StoreError Unit)
    (h : ∀ c ∈ s.collections, 0 ≤ c.contentCount) (hn : 0 ≤ n) :
    ∀ c ∈ (editCollection s kid { contentCount := some n } gw).state.collections,
      0 ≤ c.contentCount := by
  rcases gw with e | e
  · exact h
  · intro c hc
    rw [editCollection_ok_collections] at hc
    rcases List.mem_map.mp hc with ⟨c0, hc0, rfl⟩
    by_cases hm : collIdMatches kid c0
    · simpa [hm, applyCollectionUpdate] using hn
    · simpa [hm] using h c0 hc0

/-- C6: starting from a state in which every collection's `contentCount` is
non-negative, any `removeFromCollection` call (whether its gateway writes
succeed or fail) leaves every collection's `contentCount` non-negative: the
count is decremented only when strictly positive, never below zero. -/
theorem removeFromCollection_count_nonneg (s : StoreState)
    (cid kid : String) (gwEdit gwColl : Except StoreError Unit)
    (h : ∀ c ∈ s.collections, 0 ≤ c.contentCount) :
    ∀ c ∈ (removeFromCollection s cid kid gwEdit gwColl).state.collections,
      0 ≤ c.contentCount := by
  have hbase : ∀ (u : ContentUpdate) (c' : ContentCollection),
      c' ∈ (editContent s cid u gwEdit).state.collections →
        0 ≤ c'.contentCount := by
    intro u c' hc'
    rw [editContent_state_collections] at hc'
    exact h c' hc'
  unfold removeFromCollection
  dsimp only
  split
  · exact h
  · rename_i content hfind
    split
    · rename_i e hthrown
      exact fun c hc => hbase _ c hc
    · split
      · exact fun c hc => hbase _ c hc
      · rename_i coll hcoll
        split
        · rename_i hpos
          split
          · rename_i e hthrown2
            exact fun c hc =>
              editCollection_count_nonneg _ kid _ gwColl (hbase _) (by omega) c hc
          · exact fun c hc =>
              editCollection_count_nonneg _ kid _ gwColl (hbase _) (by omega) c hc
        · exact fun c hc => hbase _ c hc

theorem removeFromCollection_count_nonneg_witness :
    (0:Int) ≤ (applyCollectionUpdate collK5
        { contentCount := some 4 }).contentCount :=
  removeFromCollection_count_nonneg countState "c1" "k" (Except.ok ())
    (Except.ok ()) (by decide)
    (applyCollectionUpdate collK5 { contentCount := some 4 }) (by decide)

theorem find_update_map (l : List Content) (cid : String)
    (g : Content → Content)
    (hg : ∀ i, idMatches cid i → idMatches cid (g i)) :
    (l.map (fun i => if idMatches cid i then g i else i)).find?
        (idMatches cid) =
      (l.find? (idMatches cid)).map
        (fun i => if idMatches cid i then g i else i) := by
  induction l with
  | nil => rfl
  | cons i is ih =>
      by_cases h : idMatches cid i
      · rw [List.map_cons, if_pos h, List.find?_cons_of_pos _ (hg i h),
          List.find?_cons_of_pos _ h]
        simp [if_pos h]
      · rw [List.map_cons, if_neg h, List.find?_cons_of_neg _ h,
          List.find?_cons_of_neg _ h]
        exact ih

theorem editContent_ok_found (s : StoreState) (cid : String)
    (u : ContentUpdate) (c : Content) (bucket : List Content)
    (hfind : s.allContent.find? (idMatches cid) = some c)
    (hb : ByType.get? s.contentByType c.type = some bucket) :
    editContent s cid u (Except.ok ()) =
      ⟨{ s with
          allContent := s.allContent.map
            (fun i => if idMatches cid i then applyContentUpdate i u else i),
          contentByType := ByType.set s.contentByType c.type
            (bucket.map
              (fun i => if idMatches cid i then applyContentUpdate i u else i)),
          selectedContent :=
            match s.selectedContent with
            | some sc =>
                if sc.id == some cid then some (applyContentUpdate sc u)
                else some sc
            | none => none,
          isLoading := false, error := none },
        [GatewayCall.updateContentCall cid u], none⟩ := by
  unfold editContent
  dsimp only
  rw [hfind]
  dsimp only
  rw [hb]

theorem addToCollection_mem_allContent (s : StoreState) (cid kid : String)
    (gwE gwC : Except StoreError Unit) (c : Content)
    (hfind : s.allContent.find? (idMatches cid) = some c)
    (hmem : kid ∈ c.collections.getD []) :
    (addToCollection s cid kid gwE gwC).state.allContent = s.allContent := by
  unfold addToCollection
  dsimp only
  rw [hfind]
  dsimp only
  rw [if_pos hmem]
  dsimp only
  split
  · rfl
  · split
    · exact editCollection_state_allContent _ _ _ _
    · exact editCollection_state_allContent _ _ _ _

theorem addToCollection_notmem_allContent (s : StoreState) (cid kid : String)
    (gwC : Except StoreError Unit) (c : Content) (bucket : List Content)
    (hfind : s.allContent.find? (idMatches cid) = some c)
    (hb : ByType.get? s.contentByType c.type = some bucket)
    (hmem : kid ∉ c.collections.getD []) :
    (addToCollection s cid kid (Except.ok ()) gwC).state.allContent =
      s.allContent.map (fun i => if idMatches cid i then
        applyContentUpdate i
          { collections := some (some ((c.collections.getD []) ++ [kid])) }
        else i) := by
  unfold addToCollection
  dsimp only
  rw [hfind]
  dsimp only
  rw [if_neg hmem]
  rw [editContent_ok_found s cid _ c bucket hfind hb]
  dsimp only
  split
  · rfl
  · split
    · exact editCollection_state_allContent _ _ _ _
    · exact editCollection_state_allContent _ _ _ _

/-- C5 (amended): for an item of one of the six kinds found under `cid`
whose membership list holds `kid` at most once, two `addToCollection`
calls with successful gateway writes leave the item found under `cid`
with a membership list containing `kid` exactly once. -/
theorem addToCollection_twice_member_once (s : StoreState) (cid kid : String)
    (c : Content) (bucket : List Content)
    (hfind : s.allContent.find? (idMatches cid) = some c)
    (hb : ByType.get? s.contentByType c.type = some bucket)
    (hcount : (c.collections.getD []).count kid ≤ 1) :
    (((addToCollection
          (addToCollection s cid kid (Except.ok ()) (Except.ok ())).state
          cid kid (Except.ok ()) (Except.ok ())).state.allContent.find?
        (idMatches cid)).map
      (fun c2 => (c2.collections.getD []).count kid)) = some 1 := by
  by_cases hm : kid ∈ c.collections.getD []
  · have h1 : (addToCollection s cid kid (Except.ok ())
        (Except.ok ())).state.allContent = s.allContent :=
      addToCollection_mem_allContent s cid kid _ _ c hfind hm
    have h2 : (addToCollection
        (addToCollection s cid kid (Except.ok ()) (Except.ok ())).state
        cid kid (Except.ok ()) (Except.ok ())).state.allContent =
          (addToCollection s cid kid (Except.ok ())
            (Except.ok ())).state.allContent := by
      apply addToCollection_mem_allContent _ cid kid _ _ c _ hm
      rw [h1]
      exact hfind
    rw [h2, h1, hfind]
    have hone : (c.collections.getD []).count kid = 1 := by
      have hpos : 0 < (c.collections.getD []).count kid :=
        List.count_pos_iff.mpr hm
      omega
    simp [hone]
  · have hcm : idMatches cid c := List.find?_some hfind
    have hg : ∀ i, idMatches cid i → idMatches cid
        (applyContentUpdate i
          { collections := some (some ((c.collections.getD []) ++ [kid])) }) := by
      intro i hi
      simpa [idMatches, applyContentUpdate] using hi
    have hfind1 : (addToCollection s cid kid (Except.ok ())
        (Except.ok ())).state.allContent.find? (idMatches cid) =
          some (applyContentUpdate c
            { collections := some (some ((c.collections.getD []) ++ [kid])) }) := by
      rw [addToCollection_notmem_allContent s cid kid _ c bucket hfind hb hm,
        find_update_map _ _ _ hg, hfind]
      simp [hcm]
    have hc2 : (applyContentUpdate c
        { collections := some (some ((c.collections.getD []) ++ [kid])) }).collections.getD []
          = (c.collections.getD []) ++ [kid] := by
      simp [applyContentUpdate]
    have hm2 : kid ∈ (applyContentUpdate c
        { collections := some (some ((c.collections.getD []) ++ [kid])) }).collections.getD [] := by
      rw [hc2]
      simp
    have h2 : (addToCollection
        (addToCollection s cid kid (Except.ok ()) (Except.ok ())).state
        cid kid (Except.ok ()) (Except.ok ())).state.allContent =
          (addToCollection s cid kid (Except.ok ())
            (Except.ok ())).state.allContent :=
      addToCollection_mem_allContent _ cid kid _ _ _ hfind1 hm2
    rw [h2, hfind1]
    have hzero : (c.collections.getD []).count kid = 0 :=
      List.count_eq_zero.mpr hm
    simp [hc2, List.count_append, hzero]

theorem addToCollection_twice_member_once_counterexample :
    (((addToCollection
          (addToCollection dupState "c1" "k" (Except.ok ()) (Except.ok ())).state
          "c1" "k" (Except.ok ()) (Except.ok ())).state.allContent.find?
        (idMatches "c1")).map
      (fun c2 => (c2.collections.getD []).count "k")) = some 2 := by
  decide

theorem addToCollection_twice_member_once_witness :
    (((addToCollection
          (addToCollection witnessState "c1" "k" (Except.ok ()) (Except.ok ())).state
          "c1" "k" (Except.ok ()) (Except.ok ())).state.allContent.find?
        (idMatches "c1")).map
      (fun c2 => (c2.collections.getD []).count "k")) = some 1 :=
  addToCollection_twice_member_once witnessState "c1" "k" witnessItem
    [witnessItem] (by decide) (by decide) (by decide)

/-- C8: when the item found under `cid` already lists `kid` in its
membership and a collection with id `kid` is present, `addToCollection`
performs no content membership write (its gateway trace is exactly one
collection update) but still increments that collection's `contentCount`
by one via `editCollection`. -/
theorem addToCollection_member_only_counts (s : StoreState) (cid kid : String)
    (gwE : Except StoreError Unit) (c : Content) (coll : ContentCollection)
    (hfind : s.allContent.find? (idMatches cid) = some c)
    (hmem : kid ∈ c.collections.getD [])
    (hcoll : s.collections.find? (collIdMatches kid) = some coll) :
    ((addToCollection s cid kid gwE (Except.ok ())).calls =
      [GatewayCall.updateCollectionCall kid
        { contentCount := some (coll.contentCount + 1) }]) ∧
    ((addToCollection s cid kid gwE (Except.ok ())).state.collections =
      s.collections.map (fun x => if collIdMatches kid x then
        applyCollectionUpdate x { contentCount := some (coll.contentCount + 1) }
        else x)) ∧
    ((addToCollection s cid kid gwE (Except.ok ())).thrown = none) := by
  unfold addToCollection
  dsimp only
  rw [hfind]
  dsimp only
  rw [if_pos hmem]
  dsimp only
  rw [hcoll]
  exact ⟨rfl, rfl, rfl⟩

theorem addToCollection_member_only_counts_witness :
    (addToCollection memberState "c1" "k" (Except.ok ())
        (Except.ok ())).calls =
      [GatewayCall.updateCollectionCall "k"
        { contentCount := some (collK.contentCount + 1) }] :=
  (addToCollection_member_only_counts memberState "c1" "k" (Except.ok ())
    memberItem collK (by decide) (by decide) (by decide)).1

theorem toMillisJs_total (now : Nat) (o : Option TsVal)
    (h : o ≠ some TsVal.server) : ∃ m, toMillisJs now o = some m := by
  match o with
  | none => exact ⟨now, rfl⟩
  | some (TsVal.ts m) => exact ⟨_, rfl⟩
  | some TsVal.server => exact absurd rfl h

/-- C1 falsified as stated: for a concrete note record,
`convertFromContent` after `convertToContent` does not reproduce the
record, because the encoder drops the `id` and the `createdAt` of an
existing item and replaces `updatedAt` with the server-timestamp
sentinel. -/
theorem convert_roundtrip_counterexample :
    (convertToContent 99 noteData).bind convertFromContent ≠ some noteData := by
  decide

/-- C1 (amended): the decode/encode mapping round-trips on every field
except the identifier and the two timestamps.  For every record of a known
kind carrying only its own kind's payload fields and concrete timestamps,
`encode (decode record)` equals `record` with the optional common fields
(description, tags, isFavorite, isPublic, collections) normalized to
empty/false defaults, except that the id is omitted, `updatedAt` is
replaced by the server-timestamp sentinel and `createdAt` is dropped when
the record has a non-falsy id (and replaced by the sentinel otherwise).
For every typed item of a known kind, decoding the encoded record after
the server resolves the sentinels to a concrete nonzero time `t` yields
the item with the same normalization, except the id becomes absent,
`updatedAt` becomes `t` and `createdAt` becomes `t` for falsy-id items and
the reader's current time otherwise. -/
theorem convert_roundtrip_amended (now t : Nat) (d : DocumentData)
    (c : Content)
    (hkD : knownType d.type) (hpD : ownPayloadOnlyD d)
    (hca : d.createdAt ≠ some TsVal.server)
    (hua : d.updatedAt ≠ some TsVal.server)
    (hkC : knownType c.type) (hpC : ownPayloadOnlyC c)
    (ht : t ≠ 0) :
    ((convertToContent now d).bind convertFromContent =
      some { d with
        id := none,
        description := some (d.description.getD ""),
        tags := some (d.tags.getD []),
        isFavorite := some (d.isFavorite.getD false),
        isPublic := some (d.isPublic.getD false),
        collections := some (d.collections.getD []),
        createdAt := if optStrFalsy d.id then some TsVal.server else none,
        updatedAt := some TsVal.server }) ∧
    ((convertFromContent c).bind
        (fun e => convertToContent now (resolveData t e)) =
      some { c with
        id := none,
        description := some (c.description.getD ""),
        tags := some (c.tags.getD []),
        collections := some (c.collections.getD []),
        createdAt := if optStrFalsy c.id then t else now,
        updatedAt := t }) := by
  constructor
  · obtain ⟨ca, hca'⟩ := toMillisJs_total now d.createdAt hca
    obtain ⟨ua, hua'⟩ := toMillisJs_total now d.updatedAt hua
    obtain ⟨hP, hD, hC, hN, hA, hL⟩ := hpD
    rcases hkD with h|h|h|h|h|h
    · obtain ⟨f1, f2, f3, f4, f5, f6, f7, f8, f9, f10, f11, f12, f13⟩ := hP h
      simp [convertToContent, convertFromContent, baseFrom, encBase, hca', hua',
        h, f1, f2, f3, f4, f5, f6, f7, f8, f9, f10, f11, f12, f13,
        DocumentData.mk.injEq]
    · obtain ⟨f1, f2, f3, f4, f5, f6, f7, f8, f9, f10, f11, f12, f13, f14⟩ := hD h
      simp [convertToContent, convertFromContent, baseFrom, encBase, hca', hua',
        h, f1, f2, f3, f4, f5, f6, f7, f8, f9, f10, f11, f12, f13, f14,
        DocumentData.mk.injEq]
    · obtain ⟨f1, f2, f3, f4, f5, f6, f7, f8, f9, f10, f11, f12, f13, f14, f15⟩ := hC h
      simp [convertToContent, convertFromContent, baseFrom, encBase, hca', hua',
        h, f1, f2, f3, f4, f5, f6, f7, f8, f9, f10, f11, f12, f13, f14, f15,
        DocumentData.mk.injEq]
    · obtain ⟨f1, f2, f3, f4, f5, f6, f7, f8, f9, f10, f11, f12, f13, f14, f15, f16⟩ := hN h
      simp [convertToContent, convertFromContent, baseFrom, encBase, hca', hua',
        h, f1, f2, f3, f4, f5, f6, f7, f8, f9, f10, f11, f12, f13, f14, f15,
        f16, DocumentData.mk.injEq]
    · obtain ⟨f1, f2, f3, f4, f5, f6, f7, f8, f9, f10, f11, f12, f13, f14, f15⟩ := hA h
      simp [convertToContent, convertFromContent, baseFrom, encBase, hca', hua',
        h, f1, f2, f3, f4, f5, f6, f7, f8, f9, f10, f11, f12, f13, f14, f15,
        DocumentData.mk.injEq]
    · obtain ⟨f1, f2, f3, f4, f5, f6, f7, f8, f9, f10, f11, f12, f13, f14⟩ := hL h
      simp [convertToContent, convertFromContent, baseFrom, encBase, hca', hua',
        h, f1, f2, f3, f4, f5, f6, f7, f8, f9, f10, f11, f12, f13, f14,
        DocumentData.mk.injEq]
  · obtain ⟨hP, hD, hC, hN, hA, hL⟩ := hpC
    rcases hkC with h|h|h|h|h|h
    · obtain ⟨f1, f2, f3, f4, f5, f6, f7, f8, f9, f10, f11, f12, f13⟩ := hP h
      by_cases hid : optStrFalsy c.id <;>
        simp [convertFromContent, convertToContent, baseFrom, encBase,
          resolveData, toMillisJs, h, hid, ht, f1, f2, f3, f4, f5, f6, f7, f8,
          f9, f10, f11, f12, f13, Content.mk.injEq]
    · obtain ⟨f1, f2, f3, f4, f5, f6, f7, f8, f9, f10, f11, f12, f13, f14⟩ := hD h
      by_cases hid : optStrFalsy c.id <;>
        simp [convertFromContent, convertToContent, baseFrom, encBase,
          resolveData, toMillisJs, h, hid, ht, f1, f2, f3, f4, f5, f6, f7, f8,
          f9, f10, f11, f12, f13, f14, Content.mk.injEq]
    · obtain ⟨f1, f2, f3, f4, f5, f6, f7, f8, f9, f10, f11, f12, f13, f14, f15⟩ := hC h
      by_cases hid : optStrFalsy c.id <;>
        simp [convertFromContent, convertToContent, baseFrom, encBase,
          resolveData, toMillisJs, h, hid, ht, f1, f2, f3, f4, f5, f6, f7, f8,
          f9, f10, f11, f12, f13, f14, f15, Content.mk.injEq]
    · obtain ⟨f1, f2, f3, f4, f5, f6, f7, f8, f9, f10, f11, f12, f13, f14, f15, f16⟩ := hN h
      by_cases hid : optStrFalsy c.id <;>
        simp [convertFromContent, convertToContent, baseFrom, encBase,
          resolveData, toMillisJs, h, hid, ht, f1, f2, f3, f4, f5, f6, f7, f8,
          f9, f10, f11, f12, f13, f14, f15, f16, Content.mk.injEq]
    · obtain ⟨f1, f2, f3, f4, f5, f6, f7, f8, f9, f10, f11, f12, f13, f14, f15⟩ := hA h
      by_cases hid : optStrFalsy c.id <;>
        simp [convertFromContent, convertToContent, baseFrom, encBase,
          resolveData, toMillisJs, h, hid, ht, f1, f2, f3, f4, f5, f6, f7, f8,
          f9, f10, f11, f12, f13, f14, f15, Content.mk.injEq]
    · obtain ⟨f1, f2, f3, f4, f5, f6, f7, f8, f9, f10, f11, f12, f13, f14⟩ := hL h
      by_cases hid : optStrFalsy c.id <;>
        simp [convertFromContent, convertToContent, baseFrom, encBase,
          resolveData, toMillisJs, h, hid, ht, f1, f2, f3, f4, f5, f6, f7, f8,
          f9, f10, f11, f12, f13, f14, Content.mk.injEq]

theorem convert_roundtrip_amended_witness :
    (convertToContent 99 noteData).bind convertFromContent =
      some { noteData with
        id := none,
        description := some (noteData.description.getD ""),
        tags := some (noteData.tags.getD []),
        isFavorite := some (noteData.isFavorite.getD false),
        isPublic := some (noteData.isPublic.getD false),
        collections := some (noteData.collections.getD []),
        createdAt := if optStrFalsy noteData.id then some TsVal.server else none,
        updatedAt := some TsVal.server } :=
  (convert_roundtrip_amended 99 7 noteData witnessItem (by decide) (by decide)
    (by decide) (by decide) (by decide) (by decide) (by decide)).1
